import Mathlib

/-!
Verification of the Instahome tropical-house configurator core:
the customization options data model, the deterministic prompt builder
(`buildPrompt`), the variation orchestrator (`generateHouseImage`), and
the application-state handlers (`handleGenerate`, `handleOptionChange`,
`handleReset`).  The external image-generation service is modelled as an
oracle mapping a request index and request payload to a response.
-/

set_option maxRecDepth 100000

namespace Instahome

/-- The eight-field customization record (src/types.ts).  Fields are
strings at runtime; the enumerated domains are captured by
`ValidOptions` below. -/
structure CustomizationOptions where
  colorTheme : String
  doors : String
  windows : String
  frontYard : String
  landscaping : String
  outdoorFeatures : String
  roof : String
  furniture : String
deriving DecidableEq

/-- Default record (src/App.tsx, `initialOptions`). -/
def initialOptions : CustomizationOptions :=
  { colorTheme := "Tropical Light"
  , doors := "Glass Sliding"
  , windows := "Jalousie"
  , frontYard := "Tropical Garden"
  , landscaping := "None"
  , outdoorFeatures := "None"
  , roof := "Standard Metal Roof"
  , furniture := "None" }

def colorThemeValues : List String :=
  ["Neutral Modern", "Warm Natural", "Dark Industrial", "Tropical Light"]

def doorsValues : List String :=
  ["Narra Wood", "Steel Security", "Glass Sliding", "Double Swing Wood"]

def windowsValues : List String :=
  ["Clear Glass Sliding", "Tinted Glass", "Jalousie", "Awning Windows"]

def frontYardValues : List String :=
  ["Tropical Garden", "Modern Tiled Patio", "Simple Bermuda Grass", "Gravel & Planters"]

def landscapingValues : List String :=
  ["None", "Minimalist Zen Garden", "Flowering Tropical Paradise",
   "Rock Garden with Cacti", "Vegetable Patch"]

def outdoorFeaturesValues : List String :=
  ["None", "2-Seater Kape Table", "4-Seater Outdoor Dining", "Bamboo Bench",
   "Hammock (Duyan)"]

def roofValues : List String :=
  ["Standard Metal Roof", "Metal Roof with Solar Panels", "Clay Tile Roof"]

def furnitureValues : List String :=
  ["None", "Wicker Sofa Set", "Wooden Dining Table for 4", "Pair of Sun Loungers"]

/-- A fully populated record: each field holds a value of its enumerated
domain (src/types.ts union types). -/
def ValidOptions (o : CustomizationOptions) : Prop :=
  o.colorTheme ∈ colorThemeValues ∧ o.doors ∈ doorsValues ∧
  o.windows ∈ windowsValues ∧ o.frontYard ∈ frontYardValues ∧
  o.landscaping ∈ landscapingValues ∧ o.outdoorFeatures ∈ outdoorFeaturesValues ∧
  o.roof ∈ roofValues ∧ o.furniture ∈ furnitureValues

instance (o : CustomizationOptions) : Decidable (ValidOptions o) := by
  unfold ValidOptions; infer_instance

/-! ## Prompt template (src/App.tsx, `buildPrompt`, lines 112-182)

The template literal is transcribed as the concatenation of its static
text runs (apostrophes written `\x27`) and the substituted fields.  The
single-quote characters flanking each `${...}` substitution are kept as
the separate literal `apos` so the decomposition lemmas below can reason
about the slot boundaries; the concatenation is character-for-character
the template of the source. -/

def apos : String := "\x27"

def promptHead : String := "You are an expert architectural visualizer specializing in tropical design for the Philippines. Your task is to take the provided 3D render of an L-shaped modular home and place it into a photorealistic scene, modifying it according to the specifications below. The final image should be high-resolution and perfectly suited for a humid, tropical climate, maintaining the original structure\x27s shape, perspective, and camera angle.\n\n**Scene & Setting:** Create a lush, tropical environment in the Philippines to serve as the background and surroundings for the house.\n\n**Lighting & Realism:** The scene must be rendered with hyper-realistic lighting appropriate for the Philippines. This includes soft, diffused sunlight (like a bright, slightly overcast day) that casts gentle shadows. Incorporate subtle ambient occlusion to give the structure and surrounding objects a sense of depth and grounding.\n\n**Material & Texture Details:**\n- **Wood:** When \x27Narra Wood\x27 or other wood accents are specified, render them with a rich, visible grain and a semi-gloss finish, showcasing the natural beauty of treated tropical hardwood.\n- **Metal:** Metal roofs and trims should exhibit a subtle, realistic sheen that catches the light, indicating their material quality without being overly glossy.\n- **Glass:** All glass surfaces (windows, sliding doors) must be highly reflective, clearly mirroring the lush tropical surroundings, clouds, and sky to enhance realism.\n\n**Modifications to the House:**\n\n- **Color & Style:** Apply the "

def colorLegend : String := " theme to the building.\n  - \x27Neutral Modern\x27: Use light gray and white tones for walls and trims to reflect heat.\n  - \x27Warm Natural\x27: Use beige, cream, and local tropical wood accents (like Narra or Mahogany).\n  - \x27Dark Industrial\x27: Use charcoal gray or black with matte black metal trims, often used for modern tropical homes.\n  - \x27Tropical Light\x27: Use off-white or very light pastel colors with natural wood accents, creating an airy feel.\n\n- **Doors:** Change the doors to "

def doorsLegend : String := ". They must be suitable for tropical weather (durable against humidity and heat).\n  - \x27Narra Wood\x27: A classic, beautiful, and durable Filipino hardwood door.\n  - \x27Steel Security\x27: A practical, strong door for security.\n  - \x27Glass Sliding\x27: Large sliding glass doors to maximize light and views, with strong frames.\n  - \x27Double Swing Wood\x27: A grand entrance with two swinging wooden doors.\n\n- **Windows:** Change the windows to "

def windowsLegend : String := ". They should promote ventilation and natural light.\n  - \x27Clear Glass Sliding\x27: Standard sliding windows.\n  - \x27Tinted Glass\x27: Darkened glass to reduce solar glare and heat.\n  - \x27Jalousie\x27: The classic Filipino window with glass slats for maximum airflow, even during light rain.\n  - \x27Awning Windows\x27: Windows hinged at the top, allowing ventilation while providing shelter from rain.\n\n- **Front Yard:** Create a front yard in a "

def frontYardLegend : String := " style.\n  - \x27Tropical Garden\x27: Lush greenery with local Filipino plants like plumeria (kalachuchi), hibiscus (gumamela), palms, and broad-leafed plants.\n  - \x27Modern Tiled Patio\x27: Use non-slip ceramic or concrete tiles for a clean, modern outdoor living space, perhaps with a small patch of grass.\n  - \x27Simple Bermuda Grass\x27: A clean, manicured lawn.\n  - \x27Gravel & Planters\x27: Use of decorative gravel (white or gray) with large concrete planters for a low-maintenance, modern look."

def lsIntro : String := "\n  - **Landscaping Theme:** Within the front yard, introduce a "

def lsTail : String := " theme.\n    - \x27Minimalist Zen Garden\x27: Use raked white sand, a few carefully placed boulders, and perhaps a single bonsai-style tree.\n    - \x27Flowering Tropical Paradise\x27: Add an abundance of colorful, local flowering plants like hibiscus, bougainvillea, and birds of paradise.\n    - \x27Rock Garden with Cacti\x27: A dry-style garden with various types of rocks, pebbles, and succulents or cacti suitable for a tropical climate.\n    - \x27Vegetable Patch\x27: Create a neat, organized section with raised garden beds for growing vegetables."

def roofIntro : String := "\n\n- **Roof:** Modify the roof to be a "

def roofLegend : String := ".\n  - \x27Standard Metal Roof\x27: A typical long-span corrugated metal roof, common in the Philippines.\n  - \x27Metal Roof with Solar Panels\x27: Add sleek, modern solar panels to the metal roof.\n  - \x27Clay Tile Roof\x27: Add a classic Spanish-style clay tile (tegula) roof, which helps keep the interior cool.\n\n- **Outdoor Features:** Add the following feature: "

def outdoorTail : String := ".\n  - If not \x27None\x27, place it naturally within the scene.\n  - \x272-Seater Kape Table\x27: A small cafe table set for two, for enjoying coffee outdoors.\n  - \x274-Seater Outdoor Dining\x27: A larger table set for four.\n  - \x27Bamboo Bench\x27: A simple, locally-styled bamboo bench.\n  - \x27Hammock (Duyan)\x27: A traditional Filipino hammock."

def furnIntro : String := "\n- **Furniture:** Add a "

def furnTail : String := ". Place it naturally within any visible front yard or patio area. The furniture must be weather-resistant, complement the overall design, and be appropriate for a tropical climate."

def rulesTail : String := "\n\n**Important Rules:**\n1.  ONLY modify the aspects of the house listed above. Maintain the L-shape.\n2.  The result must be a single, photorealistic image.\n3.  Do not add any text, labels, or watermarks.\n\nThe output should ONLY be the final, modified image."

/-- The optional landscaping clause (`landscapingPrompt` in the source):
present exactly when `landscaping` is not the sentinel `"None"`. -/
def landscapingPrompt (o : CustomizationOptions) : String :=
  if o.landscaping ≠ "None" then lsIntro ++ apos ++ o.landscaping ++ apos ++ lsTail
  else ""

/-- The optional furniture clause (`furniturePrompt` in the source):
present exactly when `furniture` is not the sentinel `"None"`. -/
def furniturePrompt (o : CustomizationOptions) : String :=
  if o.furniture ≠ "None" then furnIntro ++ apos ++ o.furniture ++ apos ++ furnTail
  else ""

/-- The prompt builder (src/App.tsx `buildPrompt`): the template literal
with the eight fields substituted and the two optional clauses spliced in. -/
def buildPrompt (o : CustomizationOptions) : String :=
  promptHead ++ apos ++ o.colorTheme ++ apos ++
  colorLegend ++ apos ++ o.doors ++ apos ++
  doorsLegend ++ apos ++ o.windows ++ apos ++
  windowsLegend ++ apos ++ o.frontYard ++ apos ++
  frontYardLegend ++ landscapingPrompt o ++
  roofIntro ++ apos ++ o.roof ++ apos ++
  roofLegend ++ apos ++ o.outdoorFeatures ++ apos ++
  outdoorTail ++ furniturePrompt o ++ rulesTail

/-! ## External generator wire model (src/services/geminiService.ts) -/

/-- An inline binary payload: MIME type plus base64 data. -/
structure InlineData where
  mimeType : String
  data : String
deriving DecidableEq

/-- One content part: either a text part or an inline-data part. -/
structure ResponsePart where
  text : Option String
  inlineData : Option InlineData
deriving DecidableEq

/-- The `content` field of a response candidate; `parts` may be absent. -/
structure ResponseContent where
  parts : Option (List ResponsePart)
deriving DecidableEq

/-- One response candidate; `content` may be absent. -/
structure ResponseCandidate where
  content : Option ResponseContent
deriving DecidableEq

/-- A generator response: a (possibly empty) list of candidates. -/
structure GenResponse where
  candidates : List ResponseCandidate
deriving DecidableEq

/-- One generation request: model identifier plus multimodal parts. -/
structure GenRequest where
  model : String
  parts : List ResponsePart
deriving DecidableEq

/-- `response.candidates?.[0]?.content?.parts?.find(part => part.inlineData)`:
the inline payload of the first part of the first candidate that carries one. -/
def firstInlinePart (r : GenResponse) : Option InlineData :=
  match r.candidates.head? with
  | none => none
  | some c =>
    match c.content with
    | none => none
    | some content =>
      match content.parts with
      | none => none
      | some parts => (parts.find? fun p => p.inlineData.isSome).bind ResponsePart.inlineData

/-- Data-URI result handle built from an inline payload. -/
def dataUri (d : InlineData) : String :=
  "data:" ++ d.mimeType ++ ";base64," ++ d.data

def mkTextPart (t : String) : ResponsePart := { text := some t, inlineData := none }

/-- Fixed variation-seeking directive appended to every request when more
than one variation is requested. -/
def variationDirective : String := "\n\n**Variation Instruction:** Generate a unique, creative variation based on the above criteria. Show a different interpretation."

/-- The text actually sent with each request (`variationPrompt` in the source). -/
def variationPromptFor (prompt : String) (variationCount : Nat) : String :=
  if variationCount > 1 then prompt ++ variationDirective else prompt

/-- The request payload sent for every variation: the model identifier, the
encoded base image part, and the (possibly decorated) text part. -/
def mkGenRequest (basePart : ResponsePart) (prompt : String) (variationCount : Nat) :
    GenRequest :=
  { model := "gemini-2.5-flash-image"
  , parts := [basePart, mkTextPart (variationPromptFor prompt variationCount)] }

/-- The list of `variationCount` requests issued by the orchestrator, in
issue order. -/
def generationRequests (basePart : ResponsePart) (prompt : String) (variationCount : Nat) :
    List GenRequest :=
  (List.range variationCount).map (fun _ => mkGenRequest basePart prompt variationCount)

def variationErrorMsg (n : Nat) : String :=
  "The AI model did not return an image for variation " ++ toString n ++ "."

def countMismatchMsg : String :=
  "The number of generated images did not match the requested count."

/-- `responses.map(...)` with a `throw` inside: extract the data URI from
each response in order, failing at the first response without an inline
image payload and naming its 1-based position. -/
def extractImageUrls : List GenResponse → Nat → Except String (List String)
  | [], _ => .ok []
  | r :: rs, i =>
    match firstInlinePart r with
    | some d =>
      match extractImageUrls rs (i + 1) with
      | .ok urls => .ok (dataUri d :: urls)
      | .error e => .error e
    | none => .error (variationErrorMsg (i + 1))

/-- The variation orchestrator (src/services/geminiService.ts
`generateHouseImage`).  The external service is an oracle `respond` from
request index and request payload to response; `Promise.all` preserves
index alignment, so the response list is the oracle applied pointwise to
the issued requests. -/
def generateHouseImage (basePart : ResponsePart) (prompt : String)
    (variationCount : Nat) (respond : Nat → GenRequest → GenResponse) :
    Except String (List String) :=
  let responses :=
    (List.range variationCount).map
      (fun i => respond i (mkGenRequest basePart prompt variationCount))
  match extractImageUrls responses 0 with
  | .error e => .error e
  | .ok finalImageUrls =>
    if finalImageUrls.length ≠ variationCount then .error countMismatchMsg
    else .ok finalImageUrls

/-! ## Application state and handlers (src/App.tsx) -/

/-- The React state of `App` that the handlers read and write.  The base
image file is modelled as its already-encoded inline part (the
`fileToPart` encoding is collaborator plumbing). -/
structure AppState where
  options : CustomizationOptions
  budget : Nat
  baseImageFile : Option ResponsePart
  baseImageUrl : String
  generatedImageUrls : List String
  numberOfVariations : Nat
  isLoading : Bool
  error : Option String

/-- `isCustomizationKey` (src/App.tsx): `key in initialOptions`, i.e. the
key names one of the eight fields. -/
def isCustomizationKey (key : String) : Bool :=
  key == "colorTheme" || key == "doors" || key == "windows" || key == "frontYard" ||
  key == "landscaping" || key == "outdoorFeatures" || key == "roof" || key == "furniture"

/-- `{ ...prev, [name]: value }` for a known key: replace exactly that field. -/
def setOptionField (o : CustomizationOptions) (key value : String) : CustomizationOptions :=
  if key == "colorTheme" then { o with colorTheme := value }
  else if key == "doors" then { o with doors := value }
  else if key == "windows" then { o with windows := value }
  else if key == "frontYard" then { o with frontYard := value }
  else if key == "landscaping" then { o with landscaping := value }
  else if key == "outdoorFeatures" then { o with outdoorFeatures := value }
  else if key == "roof" then { o with roof := value }
  else if key == "furniture" then { o with furniture := value }
  else o

/-- `handleOptionChange`: apply the update only when the key passes the
guard, otherwise leave the record unchanged. -/
def handleOptionChange (o : CustomizationOptions) (name value : String) :
    CustomizationOptions :=
  if isCustomizationKey name then setOptionField o name value else o

def missingBaseImageMsg : String := "Base image is not loaded. Cannot generate a new design."

/-- `handleGenerate`: fail fast when the base image is missing (no call
issued); otherwise build the prompt, run the orchestrator, and either
store all result handles or record the failure and clear the results.
The second component counts the external generator calls issued. -/
def handleGenerate (s : AppState) (respond : Nat → GenRequest → GenResponse) :
    AppState × Nat :=
  match s.baseImageFile with
  | none => ({ s with error := some missingBaseImageMsg }, 0)
  | some basePart =>
    match generateHouseImage basePart (buildPrompt s.options) s.numberOfVariations respond with
    | .ok urls =>
      ({ s with isLoading := false, error := none, generatedImageUrls := urls },
       s.numberOfVariations)
    | .error e =>
      ({ s with isLoading := false
              , error := some ("Failed to generate the image. " ++ e)
              , generatedImageUrls := [] },
       s.numberOfVariations)

/-- The prompt a generation pass would send, as a function of the state
(`const prompt = buildPrompt()` in `handleGenerate`). -/
def renderedPrompt (s : AppState) : String := buildPrompt s.options

/-- `handleReset`: restore default options, drop the generated results,
clear the error; everything else is untouched. -/
def handleReset (s : AppState) : AppState :=
  { s with generatedImageUrls := [], options := initialOptions, error := none }

/-! ## Substring occurrence on character lists

`chrLead pat s` holds when `pat` is an initial run of `s`; `chrOccurs pat s`
holds when `pat` occurs contiguously somewhere in `s`; `strOccurs` is the
same notion on strings.  The claims about the rendered prompt are stated
with `strOccurs`. -/

def chrLead : List Char → List Char → Bool
  | [], _ => true
  | _ :: _, [] => false
  | a :: as, b :: bs => a == b && chrLead as bs

def chrOccurs (pat : List Char) : List Char → Bool
  | [] => chrLead pat []
  | b :: bs => chrLead pat (b :: bs) || chrOccurs pat bs

/-- `pat` occurs contiguously inside `s`. -/
def strOccurs (pat s : String) : Bool := chrOccurs pat.data s.data

/-- The single-quote character that flanks every substituted field in the
prompt template. -/
def aposChar : Char := Char.ofNat 39

theorem chrLead_nil_right {p : List Char} (h : chrLead p [] = true) : p = [] := by
  cases p with
  | nil => rfl
  | cons a as => simp [chrLead] at h

theorem chrLead_refl (p : List Char) : chrLead p p = true := by
  induction p with
  | nil => rfl
  | cons a as ih => simp [chrLead, ih]

theorem chrLead_append {p : List Char} (y : List Char) :
    ∀ {x : List Char}, chrLead p x = true → chrLead p (x ++ y) = true := by
  induction p with
  | nil => intro x _; rfl
  | cons a as ih =>
    intro x h
    cases x with
    | nil => simp [chrLead] at h
    | cons b bs =>
      simp only [chrLead, Bool.and_eq_true, beq_iff_eq] at h
      simp only [List.cons_append, chrLead, Bool.and_eq_true, beq_iff_eq]
      exact ⟨h.1, ih h.2⟩

theorem chrLead_of_append_mid {c : Char} :
    ∀ (p x y : List Char), c ∉ p → chrLead p (x ++ c :: y) = true → chrLead p x = true
  | [], _, _, _, _ => rfl
  | a :: as, [], y, hc, h => by
    simp only [List.nil_append, chrLead, Bool.and_eq_true, beq_iff_eq] at h
    exact absurd (h.1 ▸ List.mem_cons_self a as) hc
  | a :: as, b :: bs, y, hc, h => by
    simp only [List.cons_append, chrLead, Bool.and_eq_true, beq_iff_eq] at h ⊢
    exact ⟨h.1, chrLead_of_append_mid as bs y (fun hm => hc (List.mem_cons_of_mem a hm)) h.2⟩

theorem chrOccurs_nil_pat (s : List Char) : chrOccurs [] s = true := by
  induction s with
  | nil => rfl
  | cons b bs ih => simp [chrOccurs, chrLead]

theorem chrOccurs_of_lead {p s : List Char} (h : chrLead p s = true) :
    chrOccurs p s = true := by
  cases s with
  | nil => exact h
  | cons b bs => simp [chrOccurs, h]

theorem chrOccurs_self (p : List Char) : chrOccurs p p = true :=
  chrOccurs_of_lead (chrLead_refl p)

theorem chrOccurs_append_right (p x y : List Char) (h : chrOccurs p y = true) :
    chrOccurs p (x ++ y) = true := by
  induction x with
  | nil => simpa using h
  | cons b bs ih =>
    simp only [List.cons_append, chrOccurs, Bool.or_eq_true]
    exact Or.inr ih

theorem chrOccurs_append_left (p x y : List Char) (h : chrOccurs p x = true) :
    chrOccurs p (x ++ y) = true := by
  induction x with
  | nil =>
    have hp := chrLead_nil_right (p := p) h
    subst hp
    exact chrOccurs_nil_pat _
  | cons b bs ih =>
    simp only [chrOccurs, Bool.or_eq_true] at h
    simp only [List.cons_append, chrOccurs, Bool.or_eq_true]
    rcases h with h | h
    · exact Or.inl (by simpa using chrLead_append y h)
    · exact Or.inr (ih h)

theorem chrOccurs_split {c : Char} (p : List Char) (hc : c ∉ p) (x y : List Char) :
    chrOccurs p (x ++ c :: y) = true ↔ (chrOccurs p x = true ∨ chrOccurs p y = true) := by
  constructor
  · intro h
    induction x with
    | nil =>
      simp only [List.nil_append, chrOccurs, Bool.or_eq_true] at h
      rcases h with h | h
      · cases p with
        | nil => exact Or.inl (chrOccurs_nil_pat _)
        | cons a as =>
          simp only [chrLead, Bool.and_eq_true, beq_iff_eq] at h
          exact absurd (h.1 ▸ List.mem_cons_self a as) hc
      · exact Or.inr h
    | cons b bs ih =>
      simp only [List.cons_append, chrOccurs, Bool.or_eq_true] at h
      rcases h with h | h
      · have hlead := chrLead_of_append_mid p (b :: bs) y hc (by simpa using h)
        exact Or.inl (chrOccurs_of_lead hlead)
      · rcases ih h with h' | h'
        · refine Or.inl ?_
          simp only [chrOccurs, Bool.or_eq_true]
          exact Or.inr h'
        · exact Or.inr h'
  · intro h
    rcases h with h | h
    · exact chrOccurs_append_left p x (c :: y) h
    · refine chrOccurs_append_right p x (c :: y) ?_
      simp only [chrOccurs, Bool.or_eq_true]
      exact Or.inr h

/-- Glue a list of character-list segments with a single quote between
consecutive segments.  The rendered prompt decomposes this way at the
apostrophes flanking every substituted field. -/
def glue : List (List Char) → List Char
  | [] => []
  | [s] => s
  | s :: rest => s ++ aposChar :: glue rest

theorem glue_occ (p : List Char) (hp : p ≠ []) (hc : aposChar ∉ p) :
    ∀ segs : List (List Char),
      (chrOccurs p (glue segs) = true ↔ ∃ s ∈ segs, chrOccurs p s = true)
  | [] => by
    constructor
    · intro h
      exact absurd (chrLead_nil_right h) hp
    · rintro ⟨s, hs, -⟩
      exact absurd hs (List.not_mem_nil s)
  | [s] => by simp [glue]
  | s :: s' :: rest => by
    have ih := glue_occ p hp hc (s' :: rest)
    show chrOccurs p (s ++ aposChar :: glue (s' :: rest)) = true ↔ _
    rw [chrOccurs_split p hc, ih]
    constructor
    · rintro (h | ⟨t, ht, ho⟩)
      · exact ⟨s, List.mem_cons_self _ _, h⟩
      · exact ⟨t, List.mem_cons_of_mem s ht, ho⟩
    · rintro ⟨t, ht, ho⟩
      rcases List.mem_cons.mp ht with rfl | ht'
      · exact Or.inl ho
      · exact Or.inr ⟨t, ht', ho⟩

theorem apos_data : apos.data = [aposChar] := by decide

theorem data_empty : ("" : String).data = [] := rfl

/-- The static text runs that separate substituted fields in every
rendering of the template, regardless of the two sentinel clauses. -/
def baseStatics : List String :=
  [promptHead, colorLegend, doorsLegend, windowsLegend, roofLegend]

/-- The domains of the six fields that are substituted unconditionally. -/
def sixFieldValues : List String :=
  colorThemeValues ++ doorsValues ++ windowsValues ++ frontYardValues ++
  roofValues ++ outdoorFeaturesValues

theorem prompt_glue_nn (o : CustomizationOptions)
    (h1 : o.landscaping = "None") (h2 : o.furniture = "None") :
    (buildPrompt o).data =
      glue [promptHead.data, o.colorTheme.data, colorLegend.data, o.doors.data,
            doorsLegend.data, o.windows.data, windowsLegend.data, o.frontYard.data,
            (frontYardLegend ++ roofIntro).data, o.roof.data, roofLegend.data,
            o.outdoorFeatures.data, (outdoorTail ++ rulesTail).data] := by
  rw [buildPrompt, landscapingPrompt, furniturePrompt,
      if_neg (by simp [h1]), if_neg (by simp [h2])]
  simp [glue, String.data_append, apos_data, data_empty, List.append_assoc]

theorem prompt_glue_nf (o : CustomizationOptions)
    (h1 : o.landscaping = "None") (h2 : o.furniture ≠ "None") :
    (buildPrompt o).data =
      glue [promptHead.data, o.colorTheme.data, colorLegend.data, o.doors.data,
            doorsLegend.data, o.windows.data, windowsLegend.data, o.frontYard.data,
            (frontYardLegend ++ roofIntro).data, o.roof.data, roofLegend.data,
            o.outdoorFeatures.data, (outdoorTail ++ furnIntro).data, o.furniture.data,
            (furnTail ++ rulesTail).data] := by
  rw [buildPrompt, landscapingPrompt, furniturePrompt, if_neg (by simp [h1]), if_pos h2]
  simp [glue, String.data_append, apos_data, data_empty, List.append_assoc]

theorem prompt_glue_ln (o : CustomizationOptions)
    (h1 : o.landscaping ≠ "None") (h2 : o.furniture = "None") :
    (buildPrompt o).data =
      glue [promptHead.data, o.colorTheme.data, colorLegend.data, o.doors.data,
            doorsLegend.data, o.windows.data, windowsLegend.data, o.frontYard.data,
            (frontYardLegend ++ lsIntro).data, o.landscaping.data,
            (lsTail ++ roofIntro).data, o.roof.data, roofLegend.data,
            o.outdoorFeatures.data, (outdoorTail ++ rulesTail).data] := by
  rw [buildPrompt, landscapingPrompt, furniturePrompt, if_pos h1, if_neg (by simp [h2])]
  simp [glue, String.data_append, apos_data, data_empty, List.append_assoc]

theorem prompt_glue_ll (o : CustomizationOptions)
    (h1 : o.landscaping ≠ "None") (h2 : o.furniture ≠ "None") :
    (buildPrompt o).data =
      glue [promptHead.data, o.colorTheme.data, colorLegend.data, o.doors.data,
            doorsLegend.data, o.windows.data, windowsLegend.data, o.frontYard.data,
            (frontYardLegend ++ lsIntro).data, o.landscaping.data,
            (lsTail ++ roofIntro).data, o.roof.data, roofLegend.data,
            o.outdoorFeatures.data, (outdoorTail ++ furnIntro).data, o.furniture.data,
            (furnTail ++ rulesTail).data] := by
  rw [buildPrompt, landscapingPrompt, furniturePrompt, if_pos h1, if_pos h2]
  simp [glue, String.data_append, apos_data, data_empty, List.append_assoc]

/-- A quote-free pattern that occurs in no static run of the variant of
the template selected by the two sentinels, in no unconditionally
substituted domain value, and in neither optional field's substituted
value, does not occur in the rendered prompt. -/
theorem occ_false_generic (o : CustomizationOptions) (hv : ValidOptions o)
    (p : List Char) (hp : p ≠ []) (hc : aposChar ∉ p)
    (hstat : ∀ s ∈ baseStatics, chrOccurs p s.data = false)
    (hfields : ∀ v ∈ sixFieldValues, chrOccurs p v.data = false)
    (hlsN : o.landscaping = "None" → chrOccurs p (frontYardLegend ++ roofIntro).data = false)
    (hlsS : o.landscaping ≠ "None" →
      chrOccurs p o.landscaping.data = false ∧
      chrOccurs p (frontYardLegend ++ lsIntro).data = false ∧
      chrOccurs p (lsTail ++ roofIntro).data = false)
    (hfuN : o.furniture = "None" → chrOccurs p (outdoorTail ++ rulesTail).data = false)
    (hfuS : o.furniture ≠ "None" →
      chrOccurs p o.furniture.data = false ∧
      chrOccurs p (outdoorTail ++ furnIntro).data = false ∧
      chrOccurs p (furnTail ++ rulesTail).data = false) :
    chrOccurs p (buildPrompt o).data = false := by
  obtain ⟨hct, hdr, hwd, hfy, -, hodv, hrf, -⟩ := hv
  have hne : ∀ {b : Bool}, b = false → ¬(b = true) := fun h => by simp [h]
  have hct' : chrOccurs p o.colorTheme.data = false :=
    hfields _ (by unfold sixFieldValues; simp [List.mem_append, hct])
  have hdr' : chrOccurs p o.doors.data = false :=
    hfields _ (by unfold sixFieldValues; simp [List.mem_append, hdr])
  have hwd' : chrOccurs p o.windows.data = false :=
    hfields _ (by unfold sixFieldValues; simp [List.mem_append, hwd])
  have hfy' : chrOccurs p o.frontYard.data = false :=
    hfields _ (by unfold sixFieldValues; simp [List.mem_append, hfy])
  have hrf' : chrOccurs p o.roof.data = false :=
    hfields _ (by unfold sixFieldValues; simp [List.mem_append, hrf])
  have hod' : chrOccurs p o.outdoorFeatures.data = false :=
    hfields _ (by unfold sixFieldValues; simp [List.mem_append, hodv])
  by_cases hL : o.landscaping = "None" <;> by_cases hF : o.furniture = "None"
  · rw [prompt_glue_nn o hL hF, Bool.eq_false_iff]
    intro hb
    obtain ⟨s, hs, hos⟩ := (glue_occ p hp hc _).mp hb
    simp only [List.mem_cons, List.not_mem_nil, or_false] at hs
    rcases hs with rfl|rfl|rfl|rfl|rfl|rfl|rfl|rfl|rfl|rfl|rfl|rfl|rfl
    · exact hne (hstat _ (by simp [baseStatics])) hos
    · exact hne hct' hos
    · exact hne (hstat _ (by simp [baseStatics])) hos
    · exact hne hdr' hos
    · exact hne (hstat _ (by simp [baseStatics])) hos
    · exact hne hwd' hos
    · exact hne (hstat _ (by simp [baseStatics])) hos
    · exact hne hfy' hos
    · exact hne (hlsN hL) hos
    · exact hne hrf' hos
    · exact hne (hstat _ (by simp [baseStatics])) hos
    · exact hne hod' hos
    · exact hne (hfuN hF) hos
  · rw [prompt_glue_nf o hL hF, Bool.eq_false_iff]
    intro hb
    obtain ⟨s, hs, hos⟩ := (glue_occ p hp hc _).mp hb
    simp only [List.mem_cons, List.not_mem_nil, or_false] at hs
    rcases hs with rfl|rfl|rfl|rfl|rfl|rfl|rfl|rfl|rfl|rfl|rfl|rfl|rfl|rfl|rfl
    · exact hne (hstat _ (by simp [baseStatics])) hos
    · exact hne hct' hos
    · exact hne (hstat _ (by simp [baseStatics])) hos
    · exact hne hdr' hos
    · exact hne (hstat _ (by simp [baseStatics])) hos
    · exact hne hwd' hos
    · exact hne (hstat _ (by simp [baseStatics])) hos
    · exact hne hfy' hos
    · exact hne (hlsN hL) hos
    · exact hne hrf' hos
    · exact hne (hstat _ (by simp [baseStatics])) hos
    · exact hne hod' hos
    · exact hne (hfuS hF).2.1 hos
    · exact hne (hfuS hF).1 hos
    · exact hne (hfuS hF).2.2 hos
  · rw [prompt_glue_ln o hL hF, Bool.eq_false_iff]
    intro hb
    obtain ⟨s, hs, hos⟩ := (glue_occ p hp hc _).mp hb
    simp only [List.mem_cons, List.not_mem_nil, or_false] at hs
    rcases hs with rfl|rfl|rfl|rfl|rfl|rfl|rfl|rfl|rfl|rfl|rfl|rfl|rfl|rfl|rfl
    · exact hne (hstat _ (by simp [baseStatics])) hos
    · exact hne hct' hos
    · exact hne (hstat _ (by simp [baseStatics])) hos
    · exact hne hdr' hos
    · exact hne (hstat _ (by simp [baseStatics])) hos
    · exact hne hwd' hos
    · exact hne (hstat _ (by simp [baseStatics])) hos
    · exact hne hfy' hos
    · exact hne (hlsS hL).2.1 hos
    · exact hne (hlsS hL).1 hos
    · exact hne (hlsS hL).2.2 hos
    · exact hne hrf' hos
    · exact hne (hstat _ (by simp [baseStatics])) hos
    · exact hne hod' hos
    · exact hne (hfuN hF) hos
  · rw [prompt_glue_ll o hL hF, Bool.eq_false_iff]
    intro hb
    obtain ⟨s, hs, hos⟩ := (glue_occ p hp hc _).mp hb
    simp only [List.mem_cons, List.not_mem_nil, or_false] at hs
    rcases hs with rfl|rfl|rfl|rfl|rfl|rfl|rfl|rfl|rfl|rfl|rfl|rfl|rfl|rfl|rfl|rfl|rfl
    · exact hne (hstat _ (by simp [baseStatics])) hos
    · exact hne hct' hos
    · exact hne (hstat _ (by simp [baseStatics])) hos
    · exact hne hdr' hos
    · exact hne (hstat _ (by simp [baseStatics])) hos
    · exact hne hwd' hos
    · exact hne (hstat _ (by simp [baseStatics])) hos
    · exact hne hfy' hos
    · exact hne (hlsS hL).2.1 hos
    · exact hne (hlsS hL).1 hos
    · exact hne (hlsS hL).2.2 hos
    · exact hne hrf' hos
    · exact hne (hstat _ (by simp [baseStatics])) hos
    · exact hne hod' hos
    · exact hne (hfuS hF).2.1 hos
    · exact hne (hfuS hF).1 hos
    · exact hne (hfuS hF).2.2 hos

theorem strOccurs_append_left (p a b : String) (h : strOccurs p a = true) :
    strOccurs p (a ++ b) = true := by
  unfold strOccurs at h ⊢
  rw [String.data_append]
  exact chrOccurs_append_left _ _ _ h

theorem strOccurs_append_right (p a b : String) (h : strOccurs p b = true) :
    strOccurs p (a ++ b) = true := by
  unfold strOccurs at h ⊢
  rw [String.data_append]
  exact chrOccurs_append_right _ _ _ h

theorem strOccurs_self (p : String) : strOccurs p p = true := chrOccurs_self _

/-- A pattern occurring in one of the always-present static runs of the
template occurs in the rendered prompt (for every options record). -/
theorem occ_prompt_static (o : CustomizationOptions) (p : String)
    (h : strOccurs p promptHead = true ∨ strOccurs p colorLegend = true ∨
         strOccurs p doorsLegend = true ∨ strOccurs p windowsLegend = true ∨
         strOccurs p frontYardLegend = true ∨ strOccurs p roofLegend = true ∨
         strOccurs p outdoorTail = true ∨ strOccurs p rulesTail = true) :
    strOccurs p (buildPrompt o) = true := by
  unfold buildPrompt
  rcases h with h|h|h|h|h|h|h|h
  · iterate 28 apply strOccurs_append_left
    exact h
  · iterate 24 apply strOccurs_append_left
    exact strOccurs_append_right _ _ _ h
  · iterate 20 apply strOccurs_append_left
    exact strOccurs_append_right _ _ _ h
  · iterate 16 apply strOccurs_append_left
    exact strOccurs_append_right _ _ _ h
  · iterate 12 apply strOccurs_append_left
    exact strOccurs_append_right _ _ _ h
  · iterate 6 apply strOccurs_append_left
    exact strOccurs_append_right _ _ _ h
  · iterate 2 apply strOccurs_append_left
    exact strOccurs_append_right _ _ _ h
  · exact strOccurs_append_right _ _ _ h

theorem occ_prompt_colorTheme (o : CustomizationOptions) (p : String)
    (h : strOccurs p o.colorTheme = true) : strOccurs p (buildPrompt o) = true := by
  unfold buildPrompt
  iterate 26 apply strOccurs_append_left
  exact strOccurs_append_right _ _ _ h

theorem occ_prompt_doors (o : CustomizationOptions) (p : String)
    (h : strOccurs p o.doors = true) : strOccurs p (buildPrompt o) = true := by
  unfold buildPrompt
  iterate 22 apply strOccurs_append_left
  exact strOccurs_append_right _ _ _ h

theorem occ_prompt_windows (o : CustomizationOptions) (p : String)
    (h : strOccurs p o.windows = true) : strOccurs p (buildPrompt o) = true := by
  unfold buildPrompt
  iterate 18 apply strOccurs_append_left
  exact strOccurs_append_right _ _ _ h

theorem occ_prompt_frontYard (o : CustomizationOptions) (p : String)
    (h : strOccurs p o.frontYard = true) : strOccurs p (buildPrompt o) = true := by
  unfold buildPrompt
  iterate 14 apply strOccurs_append_left
  exact strOccurs_append_right _ _ _ h

theorem occ_prompt_landscapingClause (o : CustomizationOptions) (p : String)
    (h : strOccurs p (landscapingPrompt o) = true) :
    strOccurs p (buildPrompt o) = true := by
  unfold buildPrompt
  iterate 11 apply strOccurs_append_left
  exact strOccurs_append_right _ _ _ h

theorem occ_prompt_roof (o : CustomizationOptions) (p : String)
    (h : strOccurs p o.roof = true) : strOccurs p (buildPrompt o) = true := by
  unfold buildPrompt
  iterate 8 apply strOccurs_append_left
  exact strOccurs_append_right _ _ _ h

theorem occ_prompt_outdoorFeatures (o : CustomizationOptions) (p : String)
    (h : strOccurs p o.outdoorFeatures = true) : strOccurs p (buildPrompt o) = true := by
  unfold buildPrompt
  iterate 4 apply strOccurs_append_left
  exact strOccurs_append_right _ _ _ h

theorem occ_prompt_furnitureClause (o : CustomizationOptions) (p : String)
    (h : strOccurs p (furniturePrompt o) = true) :
    strOccurs p (buildPrompt o) = true := by
  unfold buildPrompt
  iterate 1 apply strOccurs_append_left
  exact strOccurs_append_right _ _ _ h

/-! ## Orchestrator lemmas -/

theorem extract_ok : ∀ (rs : List GenResponse) (i : Nat) (urls : List String),
    extractImageUrls rs i = .ok urls →
    urls.length = rs.length ∧
      urls.map some = rs.map (fun r => Option.map dataUri (firstInlinePart r))
  | [], _, urls, h => by
    unfold extractImageUrls at h
    have : urls = [] := by simpa using h.symm
    subst this
    simp
  | r :: rs, i, urls, h => by
    unfold extractImageUrls at h
    cases hf : firstInlinePart r with
    | none => rw [hf] at h; exact absurd h (by simp)
    | some d =>
      rw [hf] at h
      cases he : extractImageUrls rs (i + 1) with
      | error e => rw [he] at h; exact absurd h (by simp)
      | ok urls' =>
        rw [he] at h
        obtain ⟨h1, h2⟩ := extract_ok rs (i + 1) urls' he
        have hu : dataUri d :: urls' = urls := by simpa using h
        subst hu
        simp [hf, h1, h2]

theorem extract_err : ∀ (rs : List GenResponse) (i k : Nat) (r : GenResponse),
    rs[k]? = some r → firstInlinePart r = none →
    ∃ j, j ≤ k ∧ (∃ r', rs[j]? = some r' ∧ firstInlinePart r' = none) ∧
      extractImageUrls rs i = .error (variationErrorMsg (i + j + 1))
  | [], _, k, _, hk, _ => by simp at hk
  | r0 :: rs, i, k, r, hk, hr => by
    cases hf : firstInlinePart r0 with
    | none =>
      refine ⟨0, Nat.zero_le _, ⟨r0, by simp, hf⟩, ?_⟩
      unfold extractImageUrls
      rw [hf]
    | some d =>
      cases k with
      | zero =>
        have : r0 = r := by simpa using hk
        subst this
        rw [hf] at hr
        exact absurd hr (by simp)
      | succ k' =>
        have hk' : rs[k']? = some r := by simpa using hk
        obtain ⟨j, hj, ⟨r', hr', hn'⟩, he⟩ := extract_err rs (i + 1) k' r hk' hr
        refine ⟨j + 1, Nat.succ_le_succ hj, ⟨r', by simpa using hr', hn'⟩, ?_⟩
        unfold extractImageUrls
        rw [hf, he]
        have harith : i + 1 + j + 1 = i + (j + 1) + 1 := by omega
        rw [harith]

/-- Claim C1: for every base image part, prompt, and variation count
N ≥ 1, a successful run of `generateHouseImage` returns exactly N result
handles, and the handle at index i is the data URI extracted from the
response the oracle gave to the request issued at index i. -/
theorem orchestrator_count_alignment (basePart : ResponsePart) (prompt : String)
    (N : Nat) (respond : Nat → GenRequest → GenResponse) (urls : List String)
    (hN : 1 ≤ N)
    (h : generateHouseImage basePart prompt N respond = .ok urls) :
    urls.length = N ∧
    urls.map some =
      (List.range N).map
        (fun i => Option.map dataUri (firstInlinePart (respond i (mkGenRequest basePart prompt N)))) := by
  unfold generateHouseImage at h
  dsimp only at h
  cases he : extractImageUrls
      ((List.range N).map (fun i => respond i (mkGenRequest basePart prompt N))) 0 with
  | error e => rw [he] at h; exact absurd h (by simp)
  | ok urls0 =>
    rw [he] at h
    dsimp only at h
    by_cases hlen : urls0.length ≠ N
    · rw [if_pos hlen] at h; exact absurd h (by simp)
    · rw [if_neg hlen] at h
      obtain ⟨h1, h2⟩ := extract_ok _ 0 urls0 he
      have hu : urls0 = urls := by simpa using h
      subst hu
      rw [not_not] at hlen
      refine ⟨hlen, ?_⟩
      rw [h2, List.map_map]
      rfl

/-- Claim C2: if any of the N responses lacks an inline image payload,
`generateHouseImage` fails the whole batch with the single error naming
the (first) failing variation's 1-based index, and never returns a list
of results. -/
theorem orchestrator_all_or_nothing (basePart : ResponsePart) (prompt : String)
    (N : Nat) (respond : Nat → GenRequest → GenResponse) (i : Nat)
    (hi : i < N)
    (hnone : firstInlinePart (respond i (mkGenRequest basePart prompt N)) = none) :
    ∃ j, j ≤ i ∧
      firstInlinePart (respond j (mkGenRequest basePart prompt N)) = none ∧
      generateHouseImage basePart prompt N respond = .error (variationErrorMsg (j + 1)) ∧
      ∀ urls, generateHouseImage basePart prompt N respond ≠ .ok urls := by
  have hk : ((List.range N).map (fun i => respond i (mkGenRequest basePart prompt N)))[i]? =
      some (respond i (mkGenRequest basePart prompt N)) := by
    rw [List.getElem?_map, List.getElem?_range hi]
    rfl
  obtain ⟨j, hj, ⟨r', hr', hn'⟩, he⟩ := extract_err _ 0 i _ hk hnone
  have hjN : j < N := lt_of_le_of_lt hj hi
  have hr'' : r' = respond j (mkGenRequest basePart prompt N) := by
    rw [List.getElem?_map, List.getElem?_range hjN] at hr'
    simpa using hr'.symm
  subst hr''
  have hgen : generateHouseImage basePart prompt N respond =
      .error (variationErrorMsg (j + 1)) := by
    unfold generateHouseImage
    dsimp only
    rw [he]
    simp
  exact ⟨j, hj, hn', hgen, fun urls hcon => by rw [hgen] at hcon; exact absurd hcon (by simp)⟩

/-! ## Witness fixtures -/

/-- A response with no candidates at all (so no inline image payload). -/
def emptyGenResponse : GenResponse := { candidates := [] }

/-- A part carrying one inline image payload. -/
def okImagePart : ResponsePart :=
  { text := none, inlineData := some { mimeType := "image/png", data := "AAA" } }

/-- A well-formed response carrying one inline image payload. -/
def okGenResponse : GenResponse :=
  { candidates := [{ content := some { parts := some [okImagePart] } }] }

/-- An encoded base-image part. -/
def basePartW : ResponsePart :=
  { text := none, inlineData := some { mimeType := "image/png", data := "BASE" } }

/-- A state whose base image failed to load while stale results are
still displayed. -/
def witnessState : AppState :=
  { options := initialOptions, budget := 350000, baseImageFile := none
  , baseImageUrl := "", generatedImageUrls := ["stale"], numberOfVariations := 1
  , isLoading := false, error := none }

/-- A state with a loaded base image and one stale displayed result. -/
def loadedState : AppState :=
  { options := initialOptions, budget := 350000, baseImageFile := some basePartW
  , baseImageUrl := "blob:base", generatedImageUrls := ["old"], numberOfVariations := 1
  , isLoading := false, error := none }

/-! ## Claims C5, C6, C7, C8, C9, C10 -/

/-- Claim C5: every one of the N issued requests carries the base part and
a text part equal to the input prompt with the fixed variation directive
appended when N > 1, and equal to the input prompt exactly when N = 1
(the `if` is `N > 1`, so for N = 1 no directive is appended). -/
theorem variation_directive_requests (basePart : ResponsePart) (p : String) (N : Nat) :
    (generationRequests basePart p N).length = N ∧
    (generationRequests basePart p N).map GenRequest.parts =
      List.replicate N
        [basePart, mkTextPart (if N > 1 then p ++ variationDirective else p)] := by
  unfold generationRequests mkGenRequest variationPromptFor
  constructor
  · simp
  · simp [List.map_map, Function.comp]

/-- Claim C6: the options update replaces exactly the named field when the
key is one of the eight customization field names, and returns the record
unchanged for any other key. -/
theorem option_key_guard (o : CustomizationOptions) (k v : String) :
    handleOptionChange o k v =
      if k = "colorTheme" then { o with colorTheme := v }
      else if k = "doors" then { o with doors := v }
      else if k = "windows" then { o with windows := v }
      else if k = "frontYard" then { o with frontYard := v }
      else if k = "landscaping" then { o with landscaping := v }
      else if k = "outdoorFeatures" then { o with outdoorFeatures := v }
      else if k = "roof" then { o with roof := v }
      else if k = "furniture" then { o with furniture := v }
      else o := by
  unfold handleOptionChange isCustomizationKey setOptionField
  by_cases h1 : k = "colorTheme"
  · simp [h1]
  · by_cases h2 : k = "doors"
    · simp [h1, h2]
    · by_cases h3 : k = "windows"
      · simp [h1, h2, h3]
      · by_cases h4 : k = "frontYard"
        · simp [h1, h2, h3, h4]
        · by_cases h5 : k = "landscaping"
          · simp [h1, h2, h3, h4, h5]
          · by_cases h6 : k = "outdoorFeatures"
            · simp [h1, h2, h3, h4, h5, h6]
            · by_cases h7 : k = "roof"
              · simp [h1, h2, h3, h4, h5, h6, h7]
              · by_cases h8 : k = "furniture"
                · simp [h1, h2, h3, h4, h5, h6, h7, h8]
                · simp [h1, h2, h3, h4, h5, h6, h7, h8]

/-- Claim C7: with no base image loaded, `handleGenerate` records the
precondition error and issues zero external generator calls, leaving the
rest of the state untouched. -/
theorem generate_missing_base (s : AppState) (respond : Nat → GenRequest → GenResponse)
    (h : s.baseImageFile = none) :
    handleGenerate s respond = ({ s with error := some missingBaseImageMsg }, 0) := by
  unfold handleGenerate
  rw [h]

/-- Witness for `generate_missing_base` at a concrete state. -/
theorem generate_missing_base_witness :
    handleGenerate witnessState (fun _ _ => emptyGenResponse) =
      ({ witnessState with error := some missingBaseImageMsg }, 0) :=
  generate_missing_base witnessState (fun _ _ => emptyGenResponse) rfl

/-- Claim C8 counterexample: on the missing-base-image precondition
failure the handler reports an error but leaves the previously displayed
result handles in place, so a failed generation attempt does not always
clear them. -/
theorem stale_results_counterexample :
    witnessState.generatedImageUrls = ["stale"] ∧
    witnessState.baseImageFile = none ∧
    (handleGenerate witnessState (fun _ _ => emptyGenResponse)).1.error ≠ none ∧
    (handleGenerate witnessState (fun _ _ => emptyGenResponse)).1.generatedImageUrls
      = ["stale"] := by
  refine ⟨rfl, rfl, ?_, rfl⟩
  intro hcon
  cases hcon

/-- Claim C8 (amended): when the base image is present and the generation
attempt fails (an error is recorded), the previously displayed result
handles are cleared; the missing-base-image precondition failure instead
returns before touching the displayed results. -/
theorem clears_results_on_orchestrator_failure (s : AppState)
    (respond : Nat → GenRequest → GenResponse)
    (hbase : s.baseImageFile ≠ none)
    (hfail : (handleGenerate s respond).1.error ≠ none) :
    (handleGenerate s respond).1.generatedImageUrls = [] := by
  cases hb : s.baseImageFile with
  | none => exact absurd hb hbase
  | some basePart =>
    unfold handleGenerate at hfail ⊢
    rw [hb] at hfail ⊢
    dsimp only at hfail ⊢
    cases hg : generateHouseImage basePart (buildPrompt s.options) s.numberOfVariations respond with
    | ok urls => rw [hg] at hfail; exact absurd rfl hfail
    | error e => rfl

/-- Witness for `clears_results_on_orchestrator_failure`: a loaded base
image, one variation, and an oracle returning no image payload. -/
theorem clears_results_witness :
    (handleGenerate loadedState (fun _ _ => emptyGenResponse)).1.generatedImageUrls = [] :=
  clears_results_on_orchestrator_failure loadedState (fun _ _ => emptyGenResponse)
    (by simp [loadedState]) (by intro hcon; cases hcon)

/-- Claim C9: the budget value does not influence the rendered prompt --
two runs whose states differ only in (in-range) budget values render the
same prompt string. -/
theorem budget_noninterference (s : AppState) (b1 b2 : Nat)
    (h1 : 350000 ≤ b1) (h2 : b1 ≤ 2000000) (h3 : 350000 ≤ b2) (h4 : b2 ≤ 2000000) :
    renderedPrompt { s with budget := b1 } = renderedPrompt { s with budget := b2 } := rfl

/-- Witness for `budget_noninterference` at the bounds of the slider. -/
theorem budget_noninterference_witness :
    renderedPrompt { witnessState with budget := 350000 } =
      renderedPrompt { witnessState with budget := 2000000 } :=
  budget_noninterference witnessState 350000 2000000 (by decide) (by decide) (by decide)
    (by decide)

/-- Claim C10: `handleReset` restores the default options, clears the
generated result handles and the error, and leaves the budget, the
variation count, the loaded base image (file and object URL), and the
loading flag unchanged. -/
theorem reset_frame (s : AppState) :
    (handleReset s).options = initialOptions ∧
    (handleReset s).generatedImageUrls = [] ∧
    (handleReset s).error = none ∧
    (handleReset s).budget = s.budget ∧
    (handleReset s).numberOfVariations = s.numberOfVariations ∧
    (handleReset s).baseImageFile = s.baseImageFile ∧
    (handleReset s).baseImageUrl = s.baseImageUrl ∧
    (handleReset s).isLoading = s.isLoading :=
  ⟨rfl, rfl, rfl, rfl, rfl, rfl, rfl, rfl⟩

/-! ## Claims C3 and C4 -/

/-- The header naming the landscaping-theme clause in the template. -/
def lsMarker : String := "**Landscaping Theme:**"

/-- Claim C4: with `landscaping = "None"` the rendered prompt contains no
landscaping-theme clause (its header occurs nowhere in the prompt); with
any other domain value the clause is present -- the full clause occurs in
the prompt, and it contains the selected value verbatim. -/
theorem landscaping_sentinel (o : CustomizationOptions) (hv : ValidOptions o) :
    (o.landscaping = "None" → strOccurs lsMarker (buildPrompt o) = false) ∧
    (o.landscaping ≠ "None" →
      strOccurs lsMarker (buildPrompt o) = true ∧
      strOccurs (lsIntro ++ apos ++ o.landscaping ++ apos ++ lsTail) (buildPrompt o) = true ∧
      strOccurs o.landscaping (landscapingPrompt o) = true ∧
      strOccurs o.landscaping (buildPrompt o) = true) := by
  constructor
  · intro hNone
    unfold strOccurs
    apply occ_false_generic o hv lsMarker.data (by decide) (by decide)
    · decide
    · decide
    · intro _; decide
    · intro hl; exact absurd hNone hl
    · intro _; decide
    · intro hf
      obtain ⟨-, -, -, -, -, -, -, hfu⟩ := hv
      refine ⟨?_, by decide, by decide⟩
      simp only [furnitureValues, List.mem_cons, List.not_mem_nil, or_false] at hfu
      rcases hfu with h|h|h|h
      · exact absurd h hf
      · rw [h]; decide
      · rw [h]; decide
      · rw [h]; decide
  · intro hne
    have hclause : strOccurs o.landscaping (landscapingPrompt o) = true := by
      unfold landscapingPrompt
      rw [if_pos hne]
      iterate 2 apply strOccurs_append_left
      exact strOccurs_append_right _ _ _ (strOccurs_self _)
    refine ⟨?_, ?_, hclause, occ_prompt_landscapingClause o _ hclause⟩
    · apply occ_prompt_landscapingClause
      unfold landscapingPrompt
      rw [if_pos hne]
      iterate 4 apply strOccurs_append_left
      decide
    · apply occ_prompt_landscapingClause
      unfold landscapingPrompt
      rw [if_pos hne]
      exact strOccurs_self _

/-- Witness for `landscaping_sentinel` at the default record (sentinel
selected) and at the default record with a landscaping theme selected. -/
theorem landscaping_sentinel_witness :
    strOccurs lsMarker (buildPrompt initialOptions) = false ∧
    strOccurs lsMarker
      (buildPrompt { initialOptions with landscaping := "Vegetable Patch" }) = true :=
  ⟨(landscaping_sentinel initialOptions (by decide)).1 rfl,
   ((landscaping_sentinel { initialOptions with landscaping := "Vegetable Patch" }
      (by decide)).2 (by decide)).1⟩

/-- The eight field domains, in declaration order. -/
def allFieldDomains : List (List String) :=
  [colorThemeValues, doorsValues, windowsValues, frontYardValues,
   landscapingValues, outdoorFeaturesValues, roofValues, furnitureValues]

/-- Claim C3 counterexample: at the default record (fully populated,
`landscaping = "None"`), the landscaping domain value
"Minimalist Zen Garden" does not occur in the rendered prompt, so not
every domain value of every field appears. -/
theorem legend_completeness_counterexample :
    ValidOptions initialOptions ∧
    landscapingValues ∈ allFieldDomains ∧
    "Minimalist Zen Garden" ∈ landscapingValues ∧
    strOccurs "Minimalist Zen Garden" (buildPrompt initialOptions) = false := by
  refine ⟨by decide, by simp [allFieldDomains], by simp [landscapingValues], ?_⟩
  unfold strOccurs
  apply occ_false_generic initialOptions (by decide) _ (by decide) (by decide)
  · decide
  · decide
  · intro _; decide
  · intro h; exact absurd rfl h
  · intro _; decide
  · intro h; exact absurd rfl h

/-- Non-occurrence helper for a record with `landscaping = "None"`: the
side conditions range only over concrete strings. -/
theorem occ_false_none_landscaping (o : CustomizationOptions) (hv : ValidOptions o)
    (hNone : o.landscaping = "None") (p : String)
    (hp : p.data ≠ []) (hc : aposChar ∉ p.data)
    (hstat : ∀ s ∈ baseStatics, chrOccurs p.data s.data = false)
    (hfields : ∀ v ∈ sixFieldValues, chrOccurs p.data v.data = false)
    (hfyr : chrOccurs p.data (frontYardLegend ++ roofIntro).data = false)
    (hfurn : ∀ v ∈ furnitureValues, chrOccurs p.data v.data = false)
    (hof1 : chrOccurs p.data (outdoorTail ++ rulesTail).data = false)
    (hof2 : chrOccurs p.data (outdoorTail ++ furnIntro).data = false)
    (hof3 : chrOccurs p.data (furnTail ++ rulesTail).data = false) :
    strOccurs p (buildPrompt o) = false := by
  unfold strOccurs
  apply occ_false_generic o hv p.data hp hc hstat hfields
  · intro _; exact hfyr
  · intro h; exact absurd hNone h
  · intro _; exact hof1
  · intro _
    obtain ⟨-, -, -, -, -, -, -, hfu⟩ := hv
    exact ⟨hfurn _ hfu, hof2, hof3⟩

/-- Non-occurrence helper for an arbitrary valid record: the landscaping
slot is discharged against the whole landscaping domain. -/
theorem occ_false_anywhere (o : CustomizationOptions) (hv : ValidOptions o) (p : String)
    (hp : p.data ≠ []) (hc : aposChar ∉ p.data)
    (hstat : ∀ s ∈ baseStatics, chrOccurs p.data s.data = false)
    (hfields : ∀ v ∈ sixFieldValues, chrOccurs p.data v.data = false)
    (hlsvals : ∀ w ∈ landscapingValues, chrOccurs p.data w.data = false)
    (hfyr : chrOccurs p.data (frontYardLegend ++ roofIntro).data = false)
    (hfyl : chrOccurs p.data (frontYardLegend ++ lsIntro).data = false)
    (hltr : chrOccurs p.data (lsTail ++ roofIntro).data = false)
    (hfurnval : o.furniture ≠ "None" → chrOccurs p.data o.furniture.data = false)
    (hof1 : chrOccurs p.data (outdoorTail ++ rulesTail).data = false)
    (hof2 : chrOccurs p.data (outdoorTail ++ furnIntro).data = false)
    (hof3 : chrOccurs p.data (furnTail ++ rulesTail).data = false) :
    strOccurs p (buildPrompt o) = false := by
  unfold strOccurs
  apply occ_false_generic o hv p.data hp hc hstat hfields
  · intro _; exact hfyr
  · intro _
    obtain ⟨-, -, -, -, hls, -, -, -⟩ := hv
    exact ⟨hlsvals _ hls, hfyl, hltr⟩
  · intro _; exact hof1
  · intro hf; exact ⟨hfurnval hf, hof2, hof3⟩

/-- Claim C3 (amended): for every fully populated record, all domain
values of the six fields `colorTheme`, `doors`, `windows`, `frontYard`,
`roof`, `outdoorFeatures` occur in the rendered prompt regardless of the
selection; the landscaping legend values occur exactly when
`landscaping ≠ "None"`; and the furniture field has no legend -- only the
selected furniture value occurs (when not "None"), while unselected
furniture values never occur. -/
theorem legend_completeness_amended (o : CustomizationOptions) (hv : ValidOptions o) :
    (∀ dom ∈ [colorThemeValues, doorsValues, windowsValues, frontYardValues,
              roofValues, outdoorFeaturesValues],
      ∀ v ∈ dom, strOccurs v (buildPrompt o) = true) ∧
    (o.landscaping ≠ "None" →
      ∀ v ∈ landscapingValues, strOccurs v (buildPrompt o) = true) ∧
    (o.landscaping = "None" →
      ∀ v ∈ landscapingValues, v ≠ "None" → strOccurs v (buildPrompt o) = false) ∧
    (o.furniture ≠ "None" → strOccurs o.furniture (buildPrompt o) = true) ∧
    (∀ v ∈ furnitureValues, v ≠ "None" → v ≠ o.furniture →
      strOccurs v (buildPrompt o) = false) := by
  refine ⟨?_, ?_, ?_, ?_, ?_⟩
  · intro dom hdom v hval
    simp only [List.mem_cons, List.not_mem_nil, or_false] at hdom
    rcases hdom with rfl|rfl|rfl|rfl|rfl|rfl
    · simp only [colorThemeValues, List.mem_cons, List.not_mem_nil, or_false] at hval
      rcases hval with rfl|rfl|rfl|rfl <;>
        exact occ_prompt_static o _ (Or.inr (Or.inl (by decide)))
    · simp only [doorsValues, List.mem_cons, List.not_mem_nil, or_false] at hval
      rcases hval with rfl|rfl|rfl|rfl <;>
        exact occ_prompt_static o _ (Or.inr (Or.inr (Or.inl (by decide))))
    · simp only [windowsValues, List.mem_cons, List.not_mem_nil, or_false] at hval
      rcases hval with rfl|rfl|rfl|rfl <;>
        exact occ_prompt_static o _ (Or.inr (Or.inr (Or.inr (Or.inl (by decide)))))
    · simp only [frontYardValues, List.mem_cons, List.not_mem_nil, or_false] at hval
      rcases hval with rfl|rfl|rfl|rfl <;>
        exact occ_prompt_static o _ (Or.inr (Or.inr (Or.inr (Or.inr (Or.inl (by decide))))))
    · simp only [roofValues, List.mem_cons, List.not_mem_nil, or_false] at hval
      rcases hval with rfl|rfl|rfl <;>
        exact occ_prompt_static o _
          (Or.inr (Or.inr (Or.inr (Or.inr (Or.inr (Or.inl (by decide)))))))
    · simp only [outdoorFeaturesValues, List.mem_cons, List.not_mem_nil, or_false] at hval
      rcases hval with rfl|rfl|rfl|rfl|rfl <;>
        exact occ_prompt_static o _
          (Or.inr (Or.inr (Or.inr (Or.inr (Or.inr (Or.inr (Or.inl (by decide))))))))
  · intro hne v hval
    simp only [landscapingValues, List.mem_cons, List.not_mem_nil, or_false] at hval
    rcases hval with rfl|rfl|rfl|rfl|rfl
    · exact occ_prompt_static o _
        (Or.inr (Or.inr (Or.inr (Or.inr (Or.inr (Or.inr (Or.inl (by decide))))))))
    all_goals
      apply occ_prompt_landscapingClause
      unfold landscapingPrompt
      rw [if_pos hne]
      exact strOccurs_append_right _ _ _ (by decide)
  · intro hNone v hval hvne
    simp only [landscapingValues, List.mem_cons, List.not_mem_nil, or_false] at hval
    rcases hval with rfl|rfl|rfl|rfl|rfl
    · exact absurd rfl hvne
    all_goals
      exact occ_false_none_landscaping o hv hNone _ (by decide) (by decide) (by decide)
        (by decide) (by decide) (by decide) (by decide) (by decide) (by decide)
  · intro hf
    apply occ_prompt_furnitureClause
    unfold furniturePrompt
    rw [if_pos hf]
    iterate 2 apply strOccurs_append_left
    exact strOccurs_append_right _ _ _ (strOccurs_self _)
  · intro v hval hvnone hvneq
    have hfu := hv.2.2.2.2.2.2.2
    simp only [furnitureValues, List.mem_cons, List.not_mem_nil, or_false] at hval hfu
    rcases hval with rfl|rfl|rfl|rfl
    · exact absurd rfl hvnone
    · refine occ_false_anywhere o hv _ (by decide) (by decide) (by decide) (by decide)
        (by decide) (by decide) (by decide) (by decide) ?_ (by decide) (by decide) (by decide)
      intro hf
      rcases hfu with h|h|h|h
      · exact absurd h hf
      · exact absurd h.symm hvneq
      · rw [h]; decide
      · rw [h]; decide
    · refine occ_false_anywhere o hv _ (by decide) (by decide) (by decide) (by decide)
        (by decide) (by decide) (by decide) (by decide) ?_ (by decide) (by decide) (by decide)
      intro hf
      rcases hfu with h|h|h|h
      · exact absurd h hf
      · rw [h]; decide
      · exact absurd h.symm hvneq
      · rw [h]; decide
    · refine occ_false_anywhere o hv _ (by decide) (by decide) (by decide) (by decide)
        (by decide) (by decide) (by decide) (by decide) ?_ (by decide) (by decide) (by decide)
      intro hf
      rcases hfu with h|h|h|h
      · exact absurd h hf
      · rw [h]; decide
      · rw [h]; decide
      · exact absurd h.symm hvneq

/-- Witness for `legend_completeness_amended`: a doors legend value at
the default record, and a landscaping legend value once a landscaping
theme is selected. -/
theorem legend_completeness_witness :
    strOccurs "Narra Wood" (buildPrompt initialOptions) = true ∧
    strOccurs "Minimalist Zen Garden"
      (buildPrompt { initialOptions with landscaping := "Minimalist Zen Garden" }) = true :=
  ⟨(legend_completeness_amended initialOptions (by decide)).1 doorsValues (by simp)
      "Narra Wood" (by simp [doorsValues]),
   (legend_completeness_amended { initialOptions with landscaping := "Minimalist Zen Garden" }
      (by decide)).2.1 (by decide) "Minimalist Zen Garden" (by simp [landscapingValues])⟩

/-- Witness for `orchestrator_count_alignment`: two variations against an
oracle that always returns one inline image payload. -/
theorem orchestrator_count_alignment_witness :
    (["data:image/png;base64,AAA", "data:image/png;base64,AAA"] : List String).length = 2 ∧
    (["data:image/png;base64,AAA", "data:image/png;base64,AAA"] : List String).map some =
      (List.range 2).map
        (fun i => Option.map dataUri
          (firstInlinePart ((fun _ _ => okGenResponse) i (mkGenRequest basePartW "p" 2)))) :=
  orchestrator_count_alignment basePartW "p" 2 (fun _ _ => okGenResponse)
    ["data:image/png;base64,AAA", "data:image/png;base64,AAA"] (by decide) rfl

/-- Witness for `orchestrator_all_or_nothing`: two variations against an
oracle that never returns an image payload fail naming variation 1. -/
theorem orchestrator_all_or_nothing_witness :
    generateHouseImage basePartW "p" 2 (fun _ _ => emptyGenResponse) =
      .error (variationErrorMsg 1) := by
  obtain ⟨j, hj, -, herr, -⟩ :=
    orchestrator_all_or_nothing basePartW "p" 2 (fun _ _ => emptyGenResponse) 0
      (by decide) rfl
  have hj0 : j = 0 := Nat.le_zero.mp hj
  subst hj0
  exact herr

end Instahome
